import Mathlib

/-!
A shallow embedding of the "Prompt Catalog View" Svelte component
(`src/routes/+page.svelte`, two observed variants of the same page) and proofs
of the specification's claims about it.

The component state (`prompts`, `filtered`, `searchTerm`, `currentFilter`,
`showModal`, the four form fields, and — in the second variant — the copy
feedback fields) is modelled as a structure; every event handler becomes a
state-transformer; the asynchronous remote-store and clipboard outcomes become
explicit parameters of the transformers. JS strings are modelled as Lean
`String` (a list of characters) with the JS operations (`toLowerCase`,
`includes`, `split`, `trim`) defined structurally below.
-/

/-- Model of JS `String.prototype.toLowerCase`: lower-case every character. -/
def jsToLower (s : String) : String :=
  ⟨s.data.map Char.toLower⟩

/-- Does `hay` start with `needle`? (helper for the substring test). -/
def hasPrefixChars : List Char → List Char → Bool
  | _, [] => true
  | [], _ :: _ => false
  | c :: cs, p :: ps => c == p && hasPrefixChars cs ps

/-- Does `needle` occur contiguously inside `hay`? (helper for `strIncludes`). -/
def includesChars : List Char → List Char → Bool
  | [], needle => hasPrefixChars [] needle
  | c :: cs, needle => hasPrefixChars (c :: cs) needle || includesChars cs needle

/-- Model of JS `String.prototype.includes`: `strIncludes s pat` is true iff
`pat` is a contiguous substring of `s`. -/
def strIncludes (s pat : String) : Bool :=
  includesChars s.data pat.data

/-- Model of JS `String.prototype.split` with a one-character separator:
accumulates the current segment (reversed) while scanning. `split` never
returns an empty array: on empty input it returns `[""]`. -/
def splitCharsAux (sep : Char) : List Char → List Char → List (List Char)
  | [], cur => [cur.reverse]
  | c :: cs, cur =>
    if c == sep then cur.reverse :: splitCharsAux sep cs []
    else splitCharsAux sep cs (c :: cur)

/-- Model of JS `s.split(sep)` for a one-character separator. -/
def jsSplit (sep : Char) (s : String) : List String :=
  (splitCharsAux sep s.data []).map fun l => ⟨l⟩

/-- Model of JS `String.prototype.trim`: drop leading and trailing whitespace. -/
def jsTrim (s : String) : String :=
  ⟨((s.data.dropWhile Char.isWhitespace).reverse.dropWhile Char.isWhitespace).reverse⟩

/-- The `Prompt` record interface of `+page.svelte` (both variants declare the
same shape): `id`, `title`, `prompt` (the body text), `use` (the use case),
`tags`, `updated_at`. -/
structure Prompt where
  id : Int
  title : String
  prompt : String
  use : String
  tags : List String
  updated_at : String
deriving DecidableEq

/-- The component-level state of the page. The first variant of the page has
no copy-feedback fields; it uses only the first nine fields. -/
structure CatalogState where
  prompts : List Prompt
  filtered : List Prompt
  searchTerm : String
  currentFilter : String
  showModal : Bool
  newTitle : String
  newPromptText : String
  newUse : String
  newTagsInput : String
  copiedPromptId : Option Int
  copyError : String
  clipboardSupported : Bool
deriving DecidableEq

/-- The filter predicate and recomputation of `updateFiltered` (lines 26-36 of
the first variant and 549-559 of the second, identical code): a record passes
iff (`currentFilter === 'all'` or its tags include `currentFilter`) and (the
lower-cased search term is empty or occurs in the lower-cased title, prompt
body, or use field). -/
def filterPrompts (searchTerm currentFilter : String) (prompts : List Prompt) :
    List Prompt :=
  let term := jsToLower searchTerm
  prompts.filter fun p =>
    (currentFilter == "all" || p.tags.contains currentFilter) &&
    (term == "" ||
      strIncludes (jsToLower p.title) term ||
      strIncludes (jsToLower p.prompt) term ||
      strIncludes (jsToLower p.use) term)

/-- `updateFiltered()` as a state transformer: recompute `filtered` from the
current `prompts`, `searchTerm` and `currentFilter`; nothing else changes. -/
def updateFilteredState (s : CatalogState) : CatalogState :=
  { s with filtered := filterPrompts s.searchTerm s.currentFilter s.prompts }

/-- `openModal()`: clear the four form fields and show the modal. -/
def openModal (s : CatalogState) : CatalogState :=
  { s with newTitle := "", newPromptText := "", newUse := "", newTagsInput := "",
           showModal := true }

/-- `closeModal()`: hide the modal. -/
def closeModal (s : CatalogState) : CatalogState :=
  { s with showModal := false }

/-- The tag pipeline of `savePrompt` (line 66 / line 589):
`newTagsInput.split(',').map(t => t.trim()).filter(Boolean).slice(0, 3)`. -/
def parseTags (input : String) : List String :=
  ((((jsSplit ',' input).map jsTrim).filter fun t => !(t == "")).take 3)

/-- The outcome of running a `savePrompt` handler: the post-state, whether the
remote insert was attempted, and the `alert(...)` message shown, if any. -/
structure SaveOutcome where
  state : CatalogState
  persistAttempted : Bool
  alertMsg : Option String
deriving DecidableEq

/-- Result of the second variant's insert call
(`.insert([...]).select().single()`): either an error, or success carrying the
row echoed by the store (`none` when the store acknowledged but returned no
row, the fallback branch of lines 606-617). -/
inductive InsertResult where
  | err (msg : String)
  | ok (row : Option Prompt)
deriving DecidableEq

/-- `savePrompt` of the FIRST variant (lines 60-80). The insert call returns
only `{ error }`; `insertError` is that value (`none` = no error). `nowIso`
stands for `new Date().toISOString()`. On validation failure: alert and
return. On insert error: log and return (no alert, no state change). On
success: prepend a client-synthesized record with sentinel id `-1`, recompute
the filtered view, close the modal. -/
def savePromptV1 (insertError : Option String) (nowIso : String)
    (s : CatalogState) : SaveOutcome :=
  if s.newTitle == "" || s.newPromptText == "" || s.newUse == "" then
    ⟨s, false, some "Please fill in Title, Prompt, and Use"⟩
  else
    let tags := parseTags s.newTagsInput
    match insertError with
    | some _ => ⟨s, true, none⟩
    | none =>
      let newRec : Prompt :=
        ⟨-1, s.newTitle, s.newPromptText, s.newUse, tags, nowIso⟩
      let s1 := updateFilteredState { s with prompts := newRec :: s.prompts }
      ⟨closeModal s1, true, none⟩

/-- `savePrompt` of the SECOND variant (lines 583-621). `nowMs` stands for
`Date.now()` and `nowIso` for `new Date().toISOString()`. On validation
failure: alert and return. On insert error: alert and return. On success with
an echoed row: prepend that row. On success without a row: prepend a
synthesized record whose id is `nowMs`. Either success recomputes the
filtered view and closes the modal. -/
def savePromptV2 (res : InsertResult) (nowMs : Int) (nowIso : String)
    (s : CatalogState) : SaveOutcome :=
  if s.newTitle == "" || s.newPromptText == "" || s.newUse == "" then
    ⟨s, false, some "Please fill in Title, Prompt, and Use"⟩
  else
    let tags := parseTags s.newTagsInput
    match res with
    | .err msg => ⟨s, true, some ("Error saving prompt: " ++ msg)⟩
    | .ok (some row) =>
      let s1 := updateFilteredState { s with prompts := row :: s.prompts }
      ⟨closeModal s1, true, none⟩
    | .ok none =>
      let temp : Prompt :=
        ⟨nowMs, s.newTitle, s.newPromptText, s.newUse, tags, nowIso⟩
      let s1 := updateFilteredState { s with prompts := temp :: s.prompts }
      ⟨closeModal s1, true, none⟩

/-- The synchronous part of `copyPrompt` (lines 624-632), up to the `await` of
the clipboard write: the post-state, whether the write is attempted
(`proceed`), and whether the capability-missing alert was shown. With no
clipboard support: alert and return, touching nothing. With empty text:
silently return. Otherwise reset `copyError` and clear any prior feedback
before starting the write. -/
structure CopyStart where
  state : CatalogState
  proceed : Bool
  alerted : Bool
deriving DecidableEq

/-- See `CopyStart`. -/
def copyPromptStart (textToCopy : String) (s : CatalogState) : CopyStart :=
  if !s.clipboardSupported then
    ⟨s, false, true⟩
  else if textToCopy == "" then
    ⟨s, false, false⟩
  else
    ⟨{ s with copyError := "", copiedPromptId := none }, true, false⟩

/-- The continuation of `copyPrompt` after the clipboard write resolves
(lines 634-650): the post-state and the id whose 1500 ms revert callback was
scheduled, if any. On success: record `id` as the feedback id and schedule
its revert. On failure: set the persistent `copyError`, no feedback, no
timer. -/
structure CopyFinish where
  state : CatalogState
  scheduledRevert : Option Int
deriving DecidableEq

/-- See `CopyFinish`. -/
def copyPromptFinish (id : Int) (writeOk : Bool) (s : CatalogState) :
    CopyFinish :=
  if writeOk then
    ⟨{ s with copiedPromptId := some id }, some id⟩
  else
    ⟨{ s with copyError := "Failed to copy prompt. See console for details." },
     none⟩

/-- The body of the `setTimeout` callback scheduled by `copyPromptFinish`
(lines 640-644): when it fires for `id`, clear the feedback only if the
feedback id still equals `id`. -/
def revertTimeout (id : Int) (s : CatalogState) : CatalogState :=
  if s.copiedPromptId == some id then { s with copiedPromptId := none } else s

/-- `pat` occurs as a contiguous substring of `s` (propositional form of the
JS `includes` test, used to state the specification's filter predicate). -/
def isSubstringOf (pat s : String) : Prop :=
  ∃ pre post, pre ++ pat.data ++ post = s.data

/-- The §4.2 record predicate, stated from the specification's words: a record
`r` passes iff (`categoryFilter = "all"` or `r.tags` contains the filter) and
(the search term is empty or its lower-cased form is a substring of the
lower-cased title, body, or use-case field). -/
def specMatches (searchTerm categoryFilter : String) (r : Prompt) : Prop :=
  (categoryFilter = "all" ∨ categoryFilter ∈ r.tags) ∧
  (searchTerm = "" ∨
    isSubstringOf (jsToLower searchTerm) (jsToLower r.title) ∨
    isSubstringOf (jsToLower searchTerm) (jsToLower r.prompt) ∨
    isSubstringOf (jsToLower searchTerm) (jsToLower r.use))

/-- A concrete page state used to exercise the theorems below: one loaded
record (id 1, tag "admin"), empty search, filter "all", modal open, the form
holding `{title:"T", body:"B", useCase:"U", tags:"a, b, c, d"}`, no copy
feedback pending, clipboard available. -/
def demoState : CatalogState :=
  ⟨[⟨1, "X", "Y", "Z", ["admin"], "2024-01-01"⟩],
   [⟨1, "X", "Y", "Z", ["admin"], "2024-01-01"⟩],
   "", "all", true, "T", "B", "U", "a, b, c, d", none, "", true⟩

theorem hasPrefixChars_iff (needle hay : List Char) :
    hasPrefixChars hay needle = true ↔ ∃ t, needle ++ t = hay := by
  induction needle generalizing hay with
  | nil => simp [hasPrefixChars]
  | cons p ps ih =>
    cases hay with
    | nil => simp [hasPrefixChars]
    | cons c cs =>
      simp only [hasPrefixChars, Bool.and_eq_true, beq_iff_eq, ih,
        List.cons_append, List.cons.injEq]
      constructor
      · rintro ⟨h1, t, h2⟩
        exact ⟨t, h1.symm, h2⟩
      · rintro ⟨t, h1, h2⟩
        exact ⟨h1.symm, t, h2⟩

theorem includesChars_iff (needle hay : List Char) :
    includesChars hay needle = true ↔ ∃ pre post, pre ++ needle ++ post = hay := by
  induction hay with
  | nil =>
    cases needle with
    | nil => simp [includesChars, hasPrefixChars]
    | cons p ps => simp [includesChars, hasPrefixChars]
  | cons c cs ih =>
    simp only [includesChars, Bool.or_eq_true, hasPrefixChars_iff, ih]
    constructor
    · rintro (⟨t, ht⟩ | ⟨pre, post, h⟩)
      · exact ⟨[], t, by simpa using ht⟩
      · exact ⟨c :: pre, post, by simp [h]⟩
    · rintro ⟨pre, post, h⟩
      cases pre with
      | nil => exact Or.inl ⟨post, by simpa using h⟩
      | cons x xs =>
        right
        simp only [List.cons_append, List.cons.injEq] at h
        exact ⟨xs, post, h.2⟩

theorem strIncludes_iff (s pat : String) :
    strIncludes s pat = true ↔ isSubstringOf pat s := by
  simp [strIncludes, includesChars_iff, isSubstringOf]

theorem jsToLower_eq_empty_iff (s : String) : jsToLower s = "" ↔ s = "" := by
  constructor
  · intro h
    have h2 : (jsToLower s).data = ("" : String).data := by rw [h]
    simp [jsToLower] at h2
    cases s
    simp_all
  · intro h
    rw [h]
    rfl


/-- C1: for every component state, the recomputed `filtered` view is exactly
the subset of `prompts` whose records satisfy the §4.2 predicate: the category
filter is "all" or appears among the record's tags, and the search term is
empty or its lower-cased form is a substring of the lower-cased title, body
(`prompt` field), or use-case (`use` field). -/
theorem C1_filteredView_exact (s : CatalogState) (r : Prompt) :
    r ∈ (updateFilteredState s).filtered ↔
      r ∈ s.prompts ∧ specMatches s.searchTerm s.currentFilter r := by
  simp only [updateFilteredState, filterPrompts, List.mem_filter, specMatches,
    Bool.and_eq_true, Bool.or_eq_true, beq_iff_eq, strIncludes_iff,
    jsToLower_eq_empty_iff, List.contains, List.elem_iff]
  tauto

/-- C2 counterexample: in the first variant, a failing persist call does NOT
append a client-synthesized record — at a concrete state with filled form
fields and an insert error, the handler returns with the state (in particular
the record set) completely unchanged. -/
theorem C2_fail_no_append_counterexample :
    savePromptV1 (some "db error") "2024-01-02" demoState =
      ⟨demoState, true, none⟩ := by decide

/-- C2 amended: in the first variant, when the persist call fails the handler
only logs the error and returns with the state unchanged (no record is
appended, no alert, the modal stays open with the fields intact); only when
the persist call reports no error does it prepend a client-synthesized record
with sentinel id -1 and the submitted fields, without reading back the
server-assigned record. -/
theorem C2_first_variant_failure_behavior (s : CatalogState)
    (msg nowIso : String) (hT : s.newTitle ≠ "") (hB : s.newPromptText ≠ "")
    (hU : s.newUse ≠ "") :
    savePromptV1 (some msg) nowIso s = ⟨s, true, none⟩ ∧
    (savePromptV1 none nowIso s).state.prompts =
      ⟨-1, s.newTitle, s.newPromptText, s.newUse,
        parseTags s.newTagsInput, nowIso⟩ :: s.prompts := by
  have hc : ¬ ((s.newTitle == "" || s.newPromptText == "" || s.newUse == "") = true) := by
    simp [hT, hB, hU]
  constructor <;> simp [savePromptV1, hc, updateFilteredState, closeModal]

/-- C2 witness: the amended statement instantiated at the concrete demo
state. -/
theorem C2_first_variant_failure_behavior_witness :
    (demoState.newTitle ≠ "" ∧ demoState.newPromptText ≠ "" ∧
      demoState.newUse ≠ "") ∧
    (savePromptV1 (some "db error") "2024-01-02" demoState =
        ⟨demoState, true, none⟩ ∧
     (savePromptV1 none "2024-01-02" demoState).state.prompts =
       ⟨-1, demoState.newTitle, demoState.newPromptText, demoState.newUse,
         parseTags demoState.newTagsInput, "2024-01-02"⟩ :: demoState.prompts) :=
  ⟨⟨by decide, by decide, by decide⟩,
   C2_first_variant_failure_behavior demoState "db error" "2024-01-02"
     (by decide) (by decide) (by decide)⟩

/-- C3: the id-uniqueness invariant is violated by the first variant of the
creation flow — two successful creations both prepend the constant sentinel
id -1, so starting from one loaded record (id 1), saving "T2" after "T" leaves
the in-memory set with ids [-1, -1, 1], which is not duplicate-free (and the
template keys its record list by `p.id`, so it relies on the uniqueness the
code breaks). -/
theorem C3_duplicate_sentinel_ids :
    ((savePromptV1 none "2024-01-03"
        { openModal (savePromptV1 none "2024-01-02" demoState).state with
            newTitle := "T2", newPromptText := "B2", newUse := "U2"
        }).state.prompts.map Prompt.id = [-1, -1, 1]) ∧
    ¬ List.Nodup
        ((savePromptV1 none "2024-01-03"
          { openModal (savePromptV1 none "2024-01-02" demoState).state with
              newTitle := "T2", newPromptText := "B2", newUse := "U2"
          }).state.prompts.map Prompt.id) := by decide

/-- C4: every successful creation places the new record at index 0 of the
record set, with the previously present records following unchanged and in
their prior order — for the second variant prepending the echoed row, for the
second variant's fallback prepending the synthesized record, and for the
first variant prepending the sentinel-id record; in each case regardless of
the new record's timestamp. -/
theorem C4_creation_prepends (s : CatalogState)
    (hT : s.newTitle ≠ "") (hB : s.newPromptText ≠ "") (hU : s.newUse ≠ "") :
    (∀ row nowMs nowIso,
        (savePromptV2 (.ok (some row)) nowMs nowIso s).state.prompts =
          row :: s.prompts) ∧
    (∀ nowMs nowIso,
        (savePromptV2 (.ok none) nowMs nowIso s).state.prompts =
          ⟨nowMs, s.newTitle, s.newPromptText, s.newUse,
            parseTags s.newTagsInput, nowIso⟩ :: s.prompts) ∧
    (∀ nowIso,
        (savePromptV1 none nowIso s).state.prompts =
          ⟨-1, s.newTitle, s.newPromptText, s.newUse,
            parseTags s.newTagsInput, nowIso⟩ :: s.prompts) := by
  have hc : ¬ ((s.newTitle == "" || s.newPromptText == "" || s.newUse == "") = true) := by
    simp [hT, hB, hU]
  refine ⟨?_, ?_, ?_⟩ <;> intros <;>
    simp [savePromptV2, savePromptV1, hc, updateFilteredState, closeModal]

/-- C4 witness: the fallback branch of the second variant instantiated at the
concrete demo state. -/
theorem C4_creation_prepends_witness :
    demoState.newTitle ≠ "" ∧
    (savePromptV2 (.ok none) 99 "2024-03-03" demoState).state.prompts =
      ⟨99, demoState.newTitle, demoState.newPromptText, demoState.newUse,
        parseTags demoState.newTagsInput, "2024-03-03"⟩ :: demoState.prompts :=
  ⟨by decide,
   (C4_creation_prepends demoState (by decide) (by decide) (by decide)).2.1
     99 "2024-03-03"⟩

/-- C5: the tag pipeline (split on comma, trim each segment, drop empty
segments, truncate to 3 preserving order) maps "a, b, c, d" to exactly
["a", "b", "c"], and its result never holds more than 3 entries. -/
theorem C5_tags_pipeline (input : String) :
    parseTags "a, b, c, d" = ["a", "b", "c"] ∧ (parseTags input).length ≤ 3 :=
  ⟨by decide,
   List.length_take_le 3
     (((jsSplit ',' input).map jsTrim).filter fun t => !(t == ""))⟩

/-- C6: whenever one of the three required fields is empty (a falsy check on
the raw input), both variants of the submit handler abort before the persist
call, show the validation alert, and leave the whole state — record set,
filtered view, modal visibility, and form fields — unchanged. -/
theorem C6_validation_aborts (s : CatalogState) (e : Option String)
    (res : InsertResult) (nowMs : Int) (iso1 iso2 : String)
    (h : s.newTitle = "" ∨ s.newPromptText = "" ∨ s.newUse = "") :
    savePromptV1 e iso1 s =
      ⟨s, false, some "Please fill in Title, Prompt, and Use"⟩ ∧
    savePromptV2 res nowMs iso2 s =
      ⟨s, false, some "Please fill in Title, Prompt, and Use"⟩ := by
  have hc : (s.newTitle == "" || s.newPromptText == "" || s.newUse == "") = true := by
    rcases h with h | h | h <;> simp [h]
  constructor <;> simp [savePromptV1, savePromptV2, hc]

/-- C6 witness: the validation abort instantiated at the demo state with its
title emptied. -/
theorem C6_validation_aborts_witness :
    ({ demoState with newTitle := "" } : CatalogState).newTitle = "" ∧
    (savePromptV1 none "2024-01-02" { demoState with newTitle := "" } =
       ⟨{ demoState with newTitle := "" }, false,
         some "Please fill in Title, Prompt, and Use"⟩ ∧
     savePromptV2 (.ok none) 0 "2024-01-02" { demoState with newTitle := "" } =
       ⟨{ demoState with newTitle := "" }, false,
         some "Please fill in Title, Prompt, and Use"⟩) :=
  ⟨rfl, C6_validation_aborts _ none (.ok none) 0 "2024-01-02" "2024-01-02"
    (Or.inl rfl)⟩

/-- C7: copying record A and then record B before A's 1500 ms revert fires
leaves only B showing feedback — B's copy clears A's feedback immediately (in
the synchronous part, before its own write resolves), B then becomes the
feedback id, and A's pending revert callback, firing afterwards, leaves B's
feedback in place because the revert is conditional on the feedback id still
matching the id that scheduled it. -/
theorem C7_copy_supersede (s : CatalogState) (bodyA bodyB : String)
    (idA idB : Int) (hsup : s.clipboardSupported = true)
    (hA : bodyA ≠ "") (hB : bodyB ≠ "") (hne : idA ≠ idB) :
    let a2 := copyPromptFinish idA true (copyPromptStart bodyA s).state
    let b1 := copyPromptStart bodyB a2.state
    let b2 := copyPromptFinish idB true b1.state
    a2.scheduledRevert = some idA ∧
    a2.state.copiedPromptId = some idA ∧
    b1.state.copiedPromptId = none ∧
    b2.state.copiedPromptId = some idB ∧
    (revertTimeout idA b2.state).copiedPromptId = some idB := by
  simp [copyPromptStart, copyPromptFinish, revertTimeout, hsup, hA, hB,
    Ne.symm hne]

/-- C7 witness: the copy-superseding scenario at the demo state, records 1
and 2. -/
theorem C7_copy_supersede_witness :
    (demoState.clipboardSupported = true ∧ ((1 : Int) ≠ 2)) ∧
    (let a2 := copyPromptFinish 1 true (copyPromptStart "Y" demoState).state
     let b1 := copyPromptStart "B2" a2.state
     let b2 := copyPromptFinish 2 true b1.state
     a2.scheduledRevert = some 1 ∧
     a2.state.copiedPromptId = some 1 ∧
     b1.state.copiedPromptId = none ∧
     b2.state.copiedPromptId = some 2 ∧
     (revertTimeout 1 b2.state).copiedPromptId = some 2) :=
  ⟨⟨rfl, by decide⟩,
   C7_copy_supersede demoState "Y" "B2" 1 2 rfl (by decide) (by decide)
     (by decide)⟩

/-- C8: with the clipboard capability flag false, invoking copy shows the
capability-missing alert and returns without attempting the write and without
mutating any state — in particular neither the feedback id nor the copy-error
message changes. -/
theorem C8_no_clipboard (s : CatalogState) (textToCopy : String)
    (h : s.clipboardSupported = false) :
    copyPromptStart textToCopy s = ⟨s, false, true⟩ := by
  simp [copyPromptStart, h]

/-- C8 witness: the no-clipboard abort at the demo state with the capability
flag cleared. -/
theorem C8_no_clipboard_witness :
    ({ demoState with clipboardSupported := false } : CatalogState).clipboardSupported = false ∧
    copyPromptStart "Y" { demoState with clipboardSupported := false } =
      ⟨{ demoState with clipboardSupported := false }, false, true⟩ :=
  ⟨rfl, C8_no_clipboard _ "Y" rfl⟩

/-- C9: in the second variant, on acknowledged success without an echoed row,
a local record synthesized from the current time (as temporary id) and the
just-submitted fields (with the derived tags) is prepended; when the store
does return the persisted row, that exact row is prepended instead. -/
theorem C9_fallback_synthesis (s : CatalogState) (nowMs : Int)
    (nowIso : String) (hT : s.newTitle ≠ "") (hB : s.newPromptText ≠ "")
    (hU : s.newUse ≠ "") :
    (savePromptV2 (.ok none) nowMs nowIso s).state.prompts =
      ⟨nowMs, s.newTitle, s.newPromptText, s.newUse,
        parseTags s.newTagsInput, nowIso⟩ :: s.prompts ∧
    (∀ row, (savePromptV2 (.ok (some row)) nowMs nowIso s).state.prompts =
      row :: s.prompts) := by
  have hc : ¬ ((s.newTitle == "" || s.newPromptText == "" || s.newUse == "") = true) := by
    simp [hT, hB, hU]
  constructor
  · simp [savePromptV2, hc, updateFilteredState, closeModal]
  · intro row
    simp [savePromptV2, hc, updateFilteredState, closeModal]

/-- C9 witness: the fallback synthesis at the demo state with current time
77. -/
theorem C9_fallback_synthesis_witness :
    demoState.newTitle ≠ "" ∧
    (savePromptV2 (.ok none) 77 "2024-04-04" demoState).state.prompts =
      ⟨77, demoState.newTitle, demoState.newPromptText, demoState.newUse,
        parseTags demoState.newTagsInput, "2024-04-04"⟩ :: demoState.prompts :=
  ⟨by decide,
   (C9_fallback_synthesis demoState 77 "2024-04-04"
      (by decide) (by decide) (by decide)).1⟩

/-- C10: recomputing the filtered view never touches the full record set —
the `prompts` component (and every record in it) is returned unchanged — and
the resulting view is an order-preserving, duplication-free subsequence of
it. -/
theorem C10_filter_frame (s : CatalogState) :
    (updateFilteredState s).prompts = s.prompts ∧
      (updateFilteredState s).filtered.Sublist s.prompts :=
  ⟨rfl, List.filter_sublist s.prompts⟩
